import Mathlib

/-!
Shallow embedding of `agentframework_supervisor.py`: a two-tier
supervisor/sub-agent script wiring a chat client (selected from the
environment) to a set of MCP-discovered Jira tools.

External effects (the MCP transport's tool listing, the model backend's
run) are parameters of the embedded functions; environment lookup is an
association list; module-level globals are threaded explicitly as state,
and each state carries a trace of the observable operations performed
(client construction, tool discovery, teardown, printing), so that
resource-lifecycle claims can be stated about the trace.
-/

namespace AgentSupervisor

/-- The process environment after `load_dotenv(override=True)`: an
association list from variable names to values.  `none` models an unset
variable. -/
def Env : Type := List (String × String)

/-- `os.getenv(k)` / `os.environ.get(k)`. -/
def envGet (env : Env) (k : String) : Option String :=
  List.lookup k env

/-- `os.getenv(k, d)` with a default. -/
def envGetD (env : Env) (k : String) (d : String) : String :=
  (envGet env k).getD d

/-- Python exceptions / error kinds reachable in the embedded program. -/
inductive PyError where
  /-- `os.environ[k]` with `k` unset. -/
  | keyError (k : String)
  /-- `None + str` in the azure branch when the endpoint is unset. -/
  | typeError
  /-- A failure of the MCP transport while listing tools. -/
  | connectionError (msg : String)
  /-- A failure raised by the model backend during `supervisor.run`. -/
  | backendError (msg : String)
  /-- The model requested a capability not in the agent set
  (spec error taxonomy). -/
  | unknownCapabilityError (name : String)
  /-- The step budget of the run loop was exhausted
  (spec error taxonomy). -/
  | stepBudgetExceededError
  deriving DecidableEq, Repr

/-- `os.environ[k]`: raises `KeyError` when unset. -/
def envIndex (env : Env) (k : String) : Except PyError String :=
  match envGet env k with
  | some v => .ok v
  | none => .error (.keyError k)

/-- The api_key argument passed to `OpenAIChatClient`: a literal string,
the azure bearer-token provider object, or `None` (the `.get` of an unset
variable passed through). -/
inductive ApiKey where
  | missing
  | str (s : String)
  | azureBearerTokenProvider
  deriving DecidableEq, Repr

/-- The constructed `OpenAIChatClient`, as the script parameterizes it:
`base_url` is absent in the default branch, `model_id` is `None` when an
unset variable is passed through `.get`. -/
structure OpenAIChatClient where
  base_url : Option String
  api_key : ApiKey
  model_id : Option String
  deriving DecidableEq, Repr

/-- `os.environ.get("AZURE_OPENAI_ENDPOINT") + "/openai/v1/"`: string
concatenation where the left operand may be `None` (raising `TypeError`). -/
def optConcat : Option String → String → Except PyError String
  | some s, t => .ok (s ++ t)
  | none, _ => .error .typeError

/-- The module-level `client` selection: branches on
`API_HOST = os.getenv("API_HOST", "github")` into the azure, github,
ollama, or default (OpenAI) profile.  Module initialization fails when a
branch raises (`TypeError` from `None +` in azure, `KeyError` from
`os.environ["GITHUB_TOKEN"]` in github). -/
def client (env : Env) : Except PyError OpenAIChatClient :=
  let API_HOST := envGetD env "API_HOST" "github"
  if API_HOST = "azure" then
    (optConcat (envGet env "AZURE_OPENAI_ENDPOINT") "/openai/v1/").map
      fun base_url =>
        { base_url := some base_url
          api_key := .azureBearerTokenProvider
          model_id := envGet env "AZURE_OPENAI_CHAT_DEPLOYMENT" }
  else if API_HOST = "github" then
    (envIndex env "GITHUB_TOKEN").map fun token =>
      { base_url := some "https://models.github.ai/inference"
        api_key := .str token
        model_id := some (envGetD env "GITHUB_MODEL" "openai/gpt-4o") }
  else if API_HOST = "ollama" then
    .ok { base_url := some (envGetD env "OLLAMA_ENDPOINT" "http://localhost:11434/v1")
          api_key := .str "none"
          model_id := some (envGetD env "OLLAMA_MODEL" "llama3.1:latest") }
  else
    .ok { base_url := none
          api_key := match envGet env "OPENAI_API_KEY" with
                     | some s => .str s
                     | none => .missing
          model_id := some (envGetD env "OPENAI_MODEL" "gpt-4o") }

/-- A tool discovered from the MCP server: a name plus its parameter
schema (opaque contents, compared structurally). -/
structure MCPTool where
  name : String
  paramSchema : String
  deriving DecidableEq, Repr

/-- The `env` block of the hardcoded server entry. -/
structure MCPServerEnv where
  JIRA_URL : String
  JIRA_USERNAME : String
  JIRA_API_TOKEN : String
  deriving DecidableEq, Repr

/-- One server entry of the `MultiServerMCPClient` configuration dict. -/
structure MCPServerConfig where
  command : String
  args : List String
  env : MCPServerEnv
  transport : String
  deriving DecidableEq, Repr

/-- The hardcoded `"mcp-atlassian"` server entry passed to
`MultiServerMCPClient` in `create_mcp_client`.  Note `JIRA_URL` is the
empty string and the credentials are placeholder values. -/
def mcpAtlassianConfig : MCPServerConfig :=
  { command := "docker"
    args := ["run", "-i", "--rm",
             "-e", "JIRA_URL",
             "-e", "JIRA_USERNAME",
             "-e", "JIRA_API_TOKEN",
             "ghcr.io/sooperset/mcp-atlassian:latest"]
    env := { JIRA_URL := ""
             JIRA_USERNAME := "XXXXXX"
             JIRA_API_TOKEN := "XXXXX" }
    transport := "stdio" }

/-- A constructed `MultiServerMCPClient`: its server dict plus a fresh
connection identifier distinguishing the underlying transport session. -/
structure MultiServerMCPClient where
  servers : List (String × MCPServerConfig)
  connId : Nat
  deriving DecidableEq, Repr

/-- Observable operations of the script, recorded in execution order. -/
inductive Op where
  /-- `MultiServerMCPClient(...)`: a new transport session is created. -/
  | constructClient (connId : Nat)
  /-- `mcp_client.get_tools()`: the discovery call on the session. -/
  | listTools (connId : Nat)
  /-- A teardown of the session (never emitted by the script). -/
  | closeClient (connId : Nat)
  /-- `supervisor.run(request)`. -/
  | runSupervisor (request : String)
  /-- `print(s)`. -/
  | printLine (s : String)
  deriving DecidableEq, Repr

/-- System state threaded through the embedded coroutines: the next fresh
connection id and the trace of operations performed so far. -/
structure SysState where
  nextConnId : Nat
  trace : List Op
  deriving DecidableEq, Repr

/-- The external behavior of `mcp_client.get_tools()`: a function of the
server configuration, returning the discovered tools or a transport
failure.  Determinism of this function models a fixed external tool
source. -/
def GetTools : Type := MCPServerConfig → Except PyError (List MCPTool)

/-- `create_mcp_client`: constructs a fresh `MultiServerMCPClient` over
the hardcoded `"mcp-atlassian"` entry and immediately calls
`get_tools()` on it.  No parameter of the configuration is validated
before the call. -/
def create_mcp_client (get_tools : GetTools) (s : SysState) :
    Except PyError (List MCPTool × MultiServerMCPClient) × SysState :=
  let mcp_client : MultiServerMCPClient :=
    { servers := [("mcp-atlassian", mcpAtlassianConfig)]
      connId := s.nextConnId }
  let s1 : SysState :=
    { nextConnId := s.nextConnId + 1
      trace := s.trace ++ [.constructClient mcp_client.connId,
                           .listTools mcp_client.connId] }
  match get_tools mcpAtlassianConfig with
  | .error e => (.error e, s1)
  | .ok tools => (.ok (tools, mcp_client), s1)

/-- A `ChatAgent` as the script constructs it: chat client, instructions,
name, the `tools=` list and the `agents=` list (each `[]` when the
keyword was not passed). -/
inductive ChatAgent where
  | mk (chat_client : OpenAIChatClient) (instructions : String)
       (name : String) (tools : List MCPTool) (agents : List ChatAgent)

def ChatAgent.chat_client : ChatAgent → OpenAIChatClient
  | .mk c _ _ _ _ => c

def ChatAgent.instructions : ChatAgent → String
  | .mk _ i _ _ _ => i

def ChatAgent.name : ChatAgent → String
  | .mk _ _ n _ _ => n

def ChatAgent.tools : ChatAgent → List MCPTool
  | .mk _ _ _ t _ => t

def ChatAgent.agents : ChatAgent → List ChatAgent
  | .mk _ _ _ _ a => a

/-- A capability of an agent, in the spec's vocabulary: either a raw tool
or a nested agent to delegate to. -/
inductive Capability where
  | tool (t : MCPTool)
  | agent (a : ChatAgent)

/-- Whether a capability is an `AgentCapability` (a nested agent). -/
def Capability.isAgentCapability : Capability → Bool
  | .tool _ => false
  | .agent _ => true

/-- The capability set of a `ChatAgent`: its raw tools followed by its
nested agents. -/
def ChatAgent.capabilities (a : ChatAgent) : List Capability :=
  a.tools.map Capability.tool ++ a.agents.map Capability.agent

/-- The instructions string of the Jira sub-agent (Python adjacent-string
concatenation flattened). -/
def jiraAgentInstructions : String :=
  "You\x27re an expert MCP agent that helps users interact with Jira tickets effectively. " ++
  "You have access to comprehensive Jira operations through MCP tools that were automatically discovered. " ++
  "Key responsibilities:\n" ++
  "1. When retrieving ticket information, provide clear, structured summaries\n" ++
  "3. If a description is missing, ask the user to provide it\n" ++
  "4. If a description is not in BDD format, explain BDD format and ask for correction\n" ++
  "5. When searching tickets, use appropriate JQL queries\n" ++
  "6. Always validate input parameters before making Jira calls\n" ++
  "7. Use the available MCP tools: jira_get_issue, jira_search etc.\n\n" ++
  "BDD Format Examples:\n" ++
  "- Given [initial context]\n" ++
  "- When [action occurs]\n" ++
  "- Then [expected outcome]\n\n" ++
  "Or:\n" ++
  "- Scenario: [scenario name]\n" ++
  "- Given [preconditions]\n" ++
  "- When [action]\n" ++
  "- Then [expected result]"

/-- `create_jira_mcp_agent`: discovers the MCP tools and builds the
`"MCP Jira Agent"` over them (no nested agents). -/
def create_jira_mcp_agent (cl : OpenAIChatClient) (get_tools : GetTools)
    (s : SysState) :
    Except PyError (ChatAgent × MultiServerMCPClient) × SysState :=
  match create_mcp_client get_tools s with
  | (.error e, s1) => (.error e, s1)
  | (.ok (jira_tools, mcp_client), s1) =>
      (.ok (ChatAgent.mk cl jiraAgentInstructions "MCP Jira Agent" jira_tools [],
            mcp_client),
       s1)

/-- The module-level globals `_jira_agent` and `_mcp_client` ("Global
references for cleanup"), both `None` initially, plus the system state. -/
structure GlobalState where
  sys : SysState
  jira_agent : Option ChatAgent
  mcp_client : Option MultiServerMCPClient

/-- The state at module load: no agent, no client, empty trace. -/
def initialGlobalState : GlobalState :=
  { sys := { nextConnId := 0, trace := [] }
    jira_agent := none
    mcp_client := none }

/-- `get_jira_agent`: the singleton accessor.  Builds the agent and
client on first call, stores them in the globals, and returns the cached
agent afterwards. -/
def get_jira_agent (cl : OpenAIChatClient) (get_tools : GetTools)
    (g : GlobalState) : Except PyError ChatAgent × GlobalState :=
  match g.jira_agent with
  | some a => (.ok a, g)
  | none =>
      match create_jira_mcp_agent cl get_tools g.sys with
      | (.error e, s1) => (.error e, { g with sys := s1 })
      | (.ok (a, c), s1) =>
          (.ok a, { sys := s1, jira_agent := some a, mcp_client := some c })

/-- The instructions string of the supervisor agent. -/
def supervisorInstructions : String :=
  "You are a supervisor managing specialist agents including the MCP Jira Agent. " ++
  "Your job is to analyze user requests and delegate tasks to the appropriate agents. " ++
  "For Jira-related requests (ticket creation, retrieval, updates, searches), " ++
  "delegate to the MCP Jira Agent. " ++
  "Always provide context and clear instructions when delegating tasks. " ++
  "The Jira agent has full access to all Jira MCP tools automatically."

/-- `create_supervisor_agent`: obtains the Jira sub-agent via the
singleton accessor and builds the `"Supervisor Agent"` whose only
capability-bearing argument is `agents=[jira_agent]` (no `tools=`). -/
def create_supervisor_agent (cl : OpenAIChatClient) (get_tools : GetTools)
    (g : GlobalState) : Except PyError ChatAgent × GlobalState :=
  match get_jira_agent cl get_tools g with
  | (.error e, g1) => (.error e, g1)
  | (.ok jira_agent, g1) =>
      (.ok (ChatAgent.mk cl supervisorInstructions "Supervisor Agent"
              [] [jira_agent]),
       g1)

/-- The hardcoded ticket number in `main`. -/
def user_ticket_number : String := "AUT-633"

/-- The external behavior of `supervisor.run(request)`: the model
backend produces the response text or raises. -/
def RunBackend : Type := ChatAgent → String → Except PyError String

/-- `main`: builds the supervisor, prints the ticket banner, runs the
supervisor on the request, and prints the response text.  Any raised
error propagates without cleanup. -/
def main (cl : OpenAIChatClient) (get_tools : GetTools)
    (run_backend : RunBackend) (g : GlobalState) :
    Except PyError Unit × GlobalState :=
  match create_supervisor_agent cl get_tools g with
  | (.error e, g1) => (.error e, g1)
  | (.ok supervisor, g1) =>
      let request := "Please get the details for ticket " ++ user_ticket_number
      let g2 : GlobalState :=
        { g1 with sys := { g1.sys with
            trace := g1.sys.trace ++
              [.printLine ("🎫 Retrieving Jira ticket: " ++ user_ticket_number),
               .runSupervisor request] } }
      match run_backend supervisor request with
      | .error e => (.error e, g2)
      | .ok text =>
          (.ok (), { g2 with sys := { g2.sys with
              trace := g2.sys.trace ++ [.printLine text] } })

/-- The whole process: module initialization (client selection from the
environment) followed by `asyncio.run(main())`. -/
def runProgram (env : Env) (get_tools : GetTools) (run_backend : RunBackend) :
    Except PyError Unit × GlobalState :=
  match client env with
  | .error e => (.error e, initialGlobalState)
  | .ok cl => main cl get_tools run_backend initialGlobalState

/-- The process exit code: 0 when `main` returns, 1 when an unhandled
exception propagates out of `asyncio.run` (CPython exits 1 on an
unhandled exception). -/
def exitCode (env : Env) (get_tools : GetTools) (run_backend : RunBackend) : Nat :=
  match (runProgram env get_tools run_backend).1 with
  | .ok _ => 0
  | .error _ => 1

/-- A response of the model backend within a run: a final answer, or a
request to invoke the named capability with the given parameters. -/
inductive BackendResponse where
  | finalText (text : String)
  | invokeCapability (name : String) (params : String)
  deriving DecidableEq, Repr

/-- Modelled from the spec: the agent run loop of §4.3 is implemented by
the external `agent_framework` library (`ChatAgent.run`), not by code
under `src/`.  Per the spec, the agent submits the history to its
backend; a final answer terminates the run, a capability request is
resolved in the capability set (`UnknownCapabilityError` when absent),
invoked, appended to the history, and the loop resubmits — bounded by a
step budget whose exhaustion yields `StepBudgetExceededError`.  Returns
the run result together with the number of capability-invocation rounds
performed. -/
def runWithBudget (backend : List String → BackendResponse)
    (caps : List (String × (String → String))) :
    Nat → List String → Except PyError String × Nat
  | fuel, history =>
    match backend history with
    | .finalText t => (.ok t, 0)
    | .invokeCapability name params =>
        match fuel with
        | 0 => (.error .stepBudgetExceededError, 0)
        | fuel' + 1 =>
            match caps.find? (fun c => c.1 == name) with
            | none => (.error (.unknownCapabilityError name), 0)
            | some c =>
                let r := runWithBudget backend caps fuel' (history ++ [c.2 params])
                (r.1, r.2 + 1)

/-!  Theorems. -/

/-- Helper: the invocation-round count of a run never exceeds the step
budget, for every backend and capability set. -/
theorem runWithBudget_rounds_le (backend : List String → BackendResponse)
    (caps : List (String × (String → String))) :
    ∀ (fuel : Nat) (history : List String),
      (runWithBudget backend caps fuel history).2 ≤ fuel := by
  intro fuel
  induction fuel with
  | zero =>
      intro history
      unfold runWithBudget
      cases backend history <;> simp
  | succ n ih =>
      intro history
      unfold runWithBudget
      cases hb : backend history with
      | finalText t => simp
      | invokeCapability name params =>
          cases hf : caps.find? (fun c => c.1 == name) with
          | none => simp [hf]
          | some c => simpa [hf] using Nat.succ_le_succ (ih (history ++ [c.2 params]))

/-- **C1.** A run whose backend always requests a further (resolvable)
capability invocation performs exactly the configured step budget of
invocation rounds and then fails with `StepBudgetExceededError`; the
loop is total, so no run loops forever. -/
theorem run_always_invoking_respects_budget
    (backend : List String → BackendResponse)
    (caps : List (String × (String → String)))
    (budget : Nat) (history : List String)
    (hinv : ∀ hist, ∃ name params,
      backend hist = .invokeCapability name params ∧
      (caps.find? (fun c => c.1 == name)).isSome = true) :
    (runWithBudget backend caps budget history).1 =
      .error .stepBudgetExceededError ∧
    (runWithBudget backend caps budget history).2 = budget := by
  induction budget generalizing history with
  | zero =>
      obtain ⟨name, params, hb, _⟩ := hinv history
      unfold runWithBudget
      simp [hb]
  | succ n ih =>
      obtain ⟨name, params, hb, hsome⟩ := hinv history
      obtain ⟨c, hc⟩ := Option.isSome_iff_exists.mp hsome
      unfold runWithBudget
      obtain ⟨h1, h2⟩ := ih (history ++ [c.2 params])
      simp [hb, hc, h1, h2]

/-- A backend that always asks for the same Jira tool. -/
def alwaysInvokeBackend : List String → BackendResponse :=
  fun _ => .invokeCapability "jira_get_issue" "AUT-633"

/-- A one-tool capability set resolving that request. -/
def jiraCapSet : List (String × (String → String)) :=
  [("jira_get_issue", fun _ => "summary: Fix bug, status: Open")]

/-- Witness for C1 at budget 5: exactly 5 rounds, then
`StepBudgetExceededError`. -/
theorem run_always_invoking_respects_budget_witness :
    (runWithBudget alwaysInvokeBackend jiraCapSet 5 []).1 =
      .error .stepBudgetExceededError ∧
    (runWithBudget alwaysInvokeBackend jiraCapSet 5 []).2 = 5 :=
  run_always_invoking_respects_budget alwaysInvokeBackend jiraCapSet 5 []
    (fun _ => ⟨"jira_get_issue", "AUT-633", rfl, rfl⟩)

/-- **C3 counterexample.** With the unsupported provider discriminator
`"bedrock"` (and an OpenAI key present), module initialization does not
fail with a configuration error: it falls back to the default OpenAI
profile. -/
theorem client_unsupported_provider_no_failure :
    client [("API_HOST", "bedrock"), ("OPENAI_API_KEY", "sk-test")] =
      .ok { base_url := none, api_key := .str "sk-test",
            model_id := some "gpt-4o" } := by
  rfl

/-- **C3 (amended).** A configuration naming an unsupported provider
discriminator falls back to the default OpenAI profile (key from
`OPENAI_API_KEY`, possibly absent; model from `OPENAI_MODEL`, defaulting
to `gpt-4o`; no base url); construction never fails on this path. -/
theorem client_unsupported_provider_default_profile (env : Env)
    (h1 : envGetD env "API_HOST" "github" ≠ "azure")
    (h2 : envGetD env "API_HOST" "github" ≠ "github")
    (h3 : envGetD env "API_HOST" "github" ≠ "ollama") :
    client env =
      .ok { base_url := none
            api_key := match envGet env "OPENAI_API_KEY" with
                       | some s => .str s
                       | none => .missing
            model_id := some (envGetD env "OPENAI_MODEL" "gpt-4o") } := by
  unfold client
  simp [h1, h2, h3]

/-- Witness for the amended C3 at the concrete discriminator
`"gemini"` with no OpenAI key configured. -/
theorem client_unsupported_provider_default_profile_witness :
    client [("API_HOST", "gemini")] =
      .ok { base_url := none, api_key := .missing,
            model_id := some "gpt-4o" } :=
  client_unsupported_provider_default_profile [("API_HOST", "gemini")]
    (by decide) (by decide) (by decide)

/-- **C8 counterexample.** Selecting the default (OpenAI) profile with
its required credential `OPENAI_API_KEY` missing does not fail:
construction succeeds and passes the absent key through. -/
theorem client_missing_openai_key_succeeds :
    client [("API_HOST", "openai")] =
      .ok { base_url := none, api_key := .missing,
            model_id := some "gpt-4o" } := by
  rfl

/-- **C8 (amended).** Missing required parameters abort construction
only for the azure endpoint (with `TypeError`, from `None + str`) and
the github token (with `KeyError`), not with a dedicated configuration
error; a missing azure deployment id is passed through as `None`, and
the default profile constructs successfully even with every parameter
missing. -/
theorem client_missing_required_params (env : Env) :
    (envGetD env "API_HOST" "github" = "azure" →
      envGet env "AZURE_OPENAI_ENDPOINT" = none →
      client env = .error .typeError) ∧
    (envGetD env "API_HOST" "github" = "github" →
      envGet env "GITHUB_TOKEN" = none →
      client env = .error (.keyError "GITHUB_TOKEN")) ∧
    (envGetD env "API_HOST" "github" = "azure" →
      ∀ e, envGet env "AZURE_OPENAI_ENDPOINT" = some e →
      client env = .ok { base_url := some (e ++ "/openai/v1/")
                         api_key := .azureBearerTokenProvider
                         model_id := envGet env "AZURE_OPENAI_CHAT_DEPLOYMENT" }) ∧
    (envGetD env "API_HOST" "github" ≠ "azure" →
      envGetD env "API_HOST" "github" ≠ "github" →
      envGetD env "API_HOST" "github" ≠ "ollama" →
      (client env).isOk = true) := by
  refine ⟨?_, ?_, ?_, ?_⟩
  · intro hh he
    unfold client
    simp [hh, optConcat, he, Except.map]
  · intro hh ht
    unfold client
    simp [hh, envIndex, ht, Except.map]
  · intro hh e he
    unfold client
    simp [hh, optConcat, he, Except.map]
  · intro h1 h2 h3
    unfold client
    simp [h1, h2, h3, Except.isOk, Except.toBool]

/-- Witness for the amended C8: azure without endpoint raises
`TypeError`; github without token raises `KeyError`; azure with an
endpoint but no deployment constructs with `model_id = None`; the
default profile constructs with nothing configured. -/
theorem client_missing_required_params_witness :
    client [("API_HOST", "azure")] = .error .typeError ∧
    client [("API_HOST", "github")] = .error (.keyError "GITHUB_TOKEN") ∧
    client [("API_HOST", "azure"), ("AZURE_OPENAI_ENDPOINT", "https://example")] =
      .ok { base_url := some "https://example/openai/v1/"
            api_key := .azureBearerTokenProvider
            model_id := none } ∧
    (client [("API_HOST", "mistral")]).isOk = true :=
  ⟨(client_missing_required_params [("API_HOST", "azure")]).1 rfl rfl,
   (client_missing_required_params [("API_HOST", "github")]).2.1 rfl rfl,
   (client_missing_required_params
      [("API_HOST", "azure"), ("AZURE_OPENAI_ENDPOINT", "https://example")]).2.2.1
     rfl "https://example" rfl,
   (client_missing_required_params [("API_HOST", "mistral")]).2.2.2
     (by decide) (by decide) (by decide)⟩

/-- **C10.** When `API_HOST` is unset the github profile is selected:
module initialization raises `KeyError` when `GITHUB_TOKEN` is absent,
and otherwise constructs the client over the fixed GitHub inference
endpoint with the model defaulting to `openai/gpt-4o`. -/
theorem client_api_host_unset_github (env : Env)
    (h : envGet env "API_HOST" = none) :
    (envGet env "GITHUB_TOKEN" = none →
      client env = .error (.keyError "GITHUB_TOKEN")) ∧
    (∀ t, envGet env "GITHUB_TOKEN" = some t →
      client env =
        .ok { base_url := some "https://models.github.ai/inference"
              api_key := .str t
              model_id := some (envGetD env "GITHUB_MODEL" "openai/gpt-4o") }) := by
  have hd : envGetD env "API_HOST" "github" = "github" := by
    unfold envGetD
    rw [h]
    rfl
  constructor
  · intro ht
    unfold client
    simp [hd, envIndex, ht, Except.map]
  · intro t ht
    unfold client
    simp [hd, envIndex, ht, Except.map]

/-- Witness for C10: with an empty environment the github branch raises
`KeyError("GITHUB_TOKEN")`; with only a token set, the client points at
the GitHub endpoint with the default model. -/
theorem client_api_host_unset_github_witness :
    client [] = .error (.keyError "GITHUB_TOKEN") ∧
    client [("GITHUB_TOKEN", "ghp-abc")] =
      .ok { base_url := some "https://models.github.ai/inference"
            api_key := .str "ghp-abc"
            model_id := some "openai/gpt-4o" } :=
  ⟨(client_api_host_unset_github [] rfl).1 rfl,
   (client_api_host_unset_github [("GITHUB_TOKEN", "ghp-abc")] rfl).2
     "ghp-abc" rfl⟩

/-- Helper: the trace effect of `create_mcp_client` — it always records
the construction of a fresh client followed by the discovery attempt. -/
theorem create_mcp_client_trace (get_tools : GetTools) (s : SysState) :
    (create_mcp_client get_tools s).2.trace =
      s.trace ++ [.constructClient s.nextConnId, .listTools s.nextConnId] := by
  unfold create_mcp_client
  cases h : get_tools mcpAtlassianConfig <;> simp [h]

/-- Helper: inversion of a successful `create_mcp_client` call — the
tools are exactly the transport's answer, the client carries the fresh
connection id, and the id counter advances. -/
theorem create_mcp_client_ok_inv (get_tools : GetTools) (s : SysState)
    (tools : List MCPTool) (c : MultiServerMCPClient) (s' : SysState)
    (h : create_mcp_client get_tools s = (.ok (tools, c), s')) :
    get_tools mcpAtlassianConfig = .ok tools ∧
    c.connId = s.nextConnId ∧ s'.nextConnId = s.nextConnId + 1 := by
  unfold create_mcp_client at h
  cases hg : get_tools mcpAtlassianConfig with
  | error e =>
      rw [hg] at h
      simp at h
  | ok ts =>
      rw [hg] at h
      dsimp only at h
      injection h with hl hr
      injection hl with hl
      injection hl with ha hb
      refine ⟨by rw [ha], by rw [← hb], by rw [← hr]⟩

/-- **C2 (amended).** `create_mcp_client` performs no validation of the
tool-source parameters: for every transport behavior it constructs the
client and attempts discovery on the hardcoded configuration — whose
required `JIRA_URL` is the empty string — and its outcome is exactly the
transport's outcome, never a dedicated configuration error. -/
theorem create_mcp_client_no_validation (get_tools : GetTools) (s : SysState) :
    mcpAtlassianConfig.env.JIRA_URL = "" ∧
    (create_mcp_client get_tools s).2.trace =
      s.trace ++ [.constructClient s.nextConnId, .listTools s.nextConnId] ∧
    (create_mcp_client get_tools s).1 =
      (get_tools mcpAtlassianConfig).map
        (fun tools => (tools,
          { servers := [("mcp-atlassian", mcpAtlassianConfig)]
            connId := s.nextConnId })) := by
  refine ⟨rfl, create_mcp_client_trace get_tools s, ?_⟩
  unfold create_mcp_client
  cases h : get_tools mcpAtlassianConfig <;> simp [h, Except.map]

/-- The Jira tool listing returned by the modelled external transport. -/
def jiraToolsFixture : List MCPTool :=
  [{ name := "jira_get_issue", paramSchema := "issue_key" }]

/-- A transport that starts and lists tools successfully. -/
def getToolsFixture : GetTools := fun _ => .ok jiraToolsFixture

/-- **C2 counterexample.** The hardcoded configuration has its required
`JIRA_URL` empty, yet discovery proceeds: the client is constructed, the
connection is attempted (`listTools` appears in the trace) and succeeds —
no configuration error is raised before or instead of the connection. -/
theorem create_mcp_client_empty_url_proceeds :
    mcpAtlassianConfig.env.JIRA_URL = "" ∧
    (create_mcp_client getToolsFixture { nextConnId := 0, trace := [] }).1 =
      .ok (jiraToolsFixture,
           { servers := [("mcp-atlassian", mcpAtlassianConfig)], connId := 0 }) ∧
    (create_mcp_client getToolsFixture { nextConnId := 0, trace := [] }).2.trace =
      [.constructClient 0, .listTools 0] :=
  ⟨rfl, rfl, rfl⟩

/-- **C5.** Two discovery calls against the same tool source yield
capability sets with equal contents, while each call creates its own new
connection: the two clients carry distinct connection ids. -/
theorem create_mcp_client_twice (get_tools : GetTools) (s : SysState)
    (tools1 tools2 : List MCPTool) (c1 c2 : MultiServerMCPClient)
    (s1 s2 : SysState)
    (h1 : create_mcp_client get_tools s = (.ok (tools1, c1), s1))
    (h2 : create_mcp_client get_tools s1 = (.ok (tools2, c2), s2)) :
    tools1 = tools2 ∧ c1.connId ≠ c2.connId := by
  obtain ⟨hg1, hc1, hs1⟩ := create_mcp_client_ok_inv get_tools s tools1 c1 s1 h1
  obtain ⟨hg2, hc2, _⟩ := create_mcp_client_ok_inv get_tools s1 tools2 c2 s2 h2
  constructor
  · exact Except.ok.inj (hg1.symm.trans hg2)
  · rw [hc1, hc2, hs1]
    omega

/-- Witness for C5: from a fresh state, the first discovery returns the
fixture tools on connection 0 and the second the same tools on
connection 1. -/
theorem create_mcp_client_twice_witness :
    jiraToolsFixture = jiraToolsFixture ∧
    (MultiServerMCPClient.mk [("mcp-atlassian", mcpAtlassianConfig)] 0).connId ≠
      (MultiServerMCPClient.mk [("mcp-atlassian", mcpAtlassianConfig)] 1).connId :=
  create_mcp_client_twice getToolsFixture { nextConnId := 0, trace := [] }
    jiraToolsFixture jiraToolsFixture
    (MultiServerMCPClient.mk [("mcp-atlassian", mcpAtlassianConfig)] 0)
    (MultiServerMCPClient.mk [("mcp-atlassian", mcpAtlassianConfig)] 1)
    { nextConnId := 1, trace := [.constructClient 0, .listTools 0] }
    { nextConnId := 2, trace := [.constructClient 0, .listTools 0,
                                 .constructClient 1, .listTools 1] }
    rfl rfl

/-- Helper: a successful call of the accessor leaves the agent cached in
the global state. -/
theorem get_jira_agent_ok_caches (cl : OpenAIChatClient) (get_tools : GetTools)
    (g : GlobalState) (a : ChatAgent) (g1 : GlobalState)
    (h : get_jira_agent cl get_tools g = (.ok a, g1)) :
    g1.jira_agent = some a := by
  unfold get_jira_agent at h
  cases hj : g.jira_agent with
  | some a0 =>
      rw [hj] at h
      dsimp only at h
      injection h with hl hr
      rw [← hr, hj]
      rw [Except.ok.inj hl]
  | none =>
      rw [hj] at h
      dsimp only at h
      rcases hx : create_jira_mcp_agent cl get_tools g.sys with ⟨r, s1⟩
      rw [hx] at h
      cases r with
      | error e => simp at h
      | ok p =>
          rcases p with ⟨a0, c0⟩
          dsimp only at h
          injection h with hl hr
          rw [← hr]
          rw [Except.ok.inj hl]

/-- Helper: once the agent is cached, the accessor returns it and leaves
the whole state untouched. -/
theorem get_jira_agent_cached (cl : OpenAIChatClient) (get_tools : GetTools)
    (g : GlobalState) (a : ChatAgent) (h : g.jira_agent = some a) :
    get_jira_agent cl get_tools g = (.ok a, g) := by
  unfold get_jira_agent
  rw [h]

/-- `n + 1` further calls of the singleton accessor from a given global
state (each call threads the state of the previous one). -/
def iterGetJiraAgent (cl : OpenAIChatClient) (get_tools : GetTools) :
    Nat → GlobalState → Except PyError ChatAgent × GlobalState
  | 0, g => get_jira_agent cl get_tools g
  | n + 1, g => iterGetJiraAgent cl get_tools n (get_jira_agent cl get_tools g).2

/-- **C4.** After one successful call of `get_jira_agent`, every further
call — any number of them — returns the very same agent and leaves the
global state (cached agent, client, connection counter, trace) entirely
unchanged: discovery and construction run only on the first call. -/
theorem get_jira_agent_singleton (cl : OpenAIChatClient) (get_tools : GetTools)
    (g : GlobalState) (a : ChatAgent) (g1 : GlobalState)
    (h : get_jira_agent cl get_tools g = (.ok a, g1)) :
    ∀ n, iterGetJiraAgent cl get_tools n g1 = (.ok a, g1) := by
  have hc : g1.jira_agent = some a := get_jira_agent_ok_caches cl get_tools g a g1 h
  have hstep : get_jira_agent cl get_tools g1 = (.ok a, g1) :=
    get_jira_agent_cached cl get_tools g1 a hc
  intro n
  induction n with
  | zero => exact hstep
  | succ n ih =>
      unfold iterGetJiraAgent
      rw [hstep]
      exact ih

/-- The chat client the fixtures run with (the default OpenAI profile
with no key configured). -/
def clientFixture : OpenAIChatClient :=
  { base_url := none, api_key := .missing, model_id := some "gpt-4o" }

/-- The Jira agent built over the fixture transport. -/
def jiraAgentFixture : ChatAgent :=
  .mk clientFixture jiraAgentInstructions "MCP Jira Agent" jiraToolsFixture []

/-- The MCP client of the first discovery from a fresh state. -/
def mcpClientFixture : MultiServerMCPClient :=
  .mk [("mcp-atlassian", mcpAtlassianConfig)] 0

/-- The global state after the first successful accessor call from the
module-load state. -/
def globalStateAfterFirstCall : GlobalState :=
  { sys := { nextConnId := 1, trace := [.constructClient 0, .listTools 0] }
    jira_agent := some jiraAgentFixture
    mcp_client := some mcpClientFixture }

/-- Witness for C4: from the module-load state the first call constructs
the fixture agent, and three further calls all return it with the state
unchanged. -/
theorem get_jira_agent_singleton_witness :
    iterGetJiraAgent clientFixture getToolsFixture 2 globalStateAfterFirstCall =
      (.ok jiraAgentFixture, globalStateAfterFirstCall) :=
  get_jira_agent_singleton clientFixture getToolsFixture initialGlobalState
    jiraAgentFixture globalStateAfterFirstCall rfl 2

/-- **C6.** A successfully constructed supervisor holds no raw tool
capability: its `tools` list is empty and every entry of its capability
set is an `AgentCapability` (a nested agent).  The embedding is
immutable, so this holds for the supervisor's whole life. -/
theorem create_supervisor_agent_delegation_only (cl : OpenAIChatClient)
    (get_tools : GetTools) (g : GlobalState) (sup : ChatAgent)
    (g1 : GlobalState)
    (h : create_supervisor_agent cl get_tools g = (.ok sup, g1)) :
    sup.tools = [] ∧
    ∀ c ∈ sup.capabilities, c.isAgentCapability = true := by
  unfold create_supervisor_agent at h
  rcases hx : get_jira_agent cl get_tools g with ⟨r, g2⟩
  rw [hx] at h
  cases r with
  | error e => simp at h
  | ok jira_agent =>
      dsimp only at h
      injection h with hl hr
      have hsup : sup = ChatAgent.mk cl supervisorInstructions
          "Supervisor Agent" [] [jira_agent] := (Except.ok.inj hl).symm
      subst hsup
      refine ⟨rfl, ?_⟩
      intro c hcmem
      simp [ChatAgent.capabilities, ChatAgent.tools, ChatAgent.agents] at hcmem
      rw [hcmem]
      rfl

/-- The supervisor built over the fixtures. -/
def supervisorFixture : ChatAgent :=
  .mk clientFixture supervisorInstructions "Supervisor Agent" [] [jiraAgentFixture]

/-- Witness for C6: the concrete supervisor built from the module-load
state has no raw tools and only agent capabilities. -/
theorem create_supervisor_agent_delegation_only_witness :
    supervisorFixture.tools = [] ∧
    ∀ c ∈ supervisorFixture.capabilities, c.isAgentCapability = true :=
  create_supervisor_agent_delegation_only clientFixture getToolsFixture
    initialGlobalState supervisorFixture globalStateAfterFirstCall rfl

/-- Whether an operation is a teardown of the MCP connection. -/
def Op.isCloseClient : Op → Bool
  | .closeClient _ => true
  | _ => false

/-- A trace containing no teardown operation. -/
def noCloseOps (t : List Op) : Prop :=
  t.all (fun op => !op.isCloseClient) = true

/-- Helper: discovery appends no teardown operation. -/
theorem noClose_create_mcp_client (get_tools : GetTools) (s : SysState)
    (h : noCloseOps s.trace) :
    noCloseOps (create_mcp_client get_tools s).2.trace := by
  unfold noCloseOps at h ⊢
  rw [create_mcp_client_trace, List.all_append, h]
  rfl

/-- Helper: the final state of `create_jira_mcp_agent` is exactly that
of the underlying `create_mcp_client` call. -/
theorem create_jira_mcp_agent_snd (cl : OpenAIChatClient)
    (get_tools : GetTools) (s : SysState) :
    (create_jira_mcp_agent cl get_tools s).2 =
      (create_mcp_client get_tools s).2 := by
  unfold create_jira_mcp_agent
  rcases hx : create_mcp_client get_tools s with ⟨r, s1⟩
  cases r with
  | error e => rfl
  | ok p => rcases p with ⟨tools, c⟩; rfl

/-- Helper: the accessor appends no teardown operation. -/
theorem noClose_get_jira_agent (cl : OpenAIChatClient) (get_tools : GetTools)
    (g : GlobalState) (h : noCloseOps g.sys.trace) :
    noCloseOps (get_jira_agent cl get_tools g).2.sys.trace := by
  unfold get_jira_agent
  cases hj : g.jira_agent with
  | some a => exact h
  | none =>
      have hA : noCloseOps (create_jira_mcp_agent cl get_tools g.sys).2.trace := by
        rw [create_jira_mcp_agent_snd]
        exact noClose_create_mcp_client get_tools g.sys h
      rcases hx : create_jira_mcp_agent cl get_tools g.sys with ⟨r, s1⟩
      rw [hx] at hA
      cases r with
      | error e => exact hA
      | ok p => rcases p with ⟨a, c⟩; exact hA

/-- Helper: the final state of `create_supervisor_agent` is exactly that
of the accessor call. -/
theorem create_supervisor_agent_snd (cl : OpenAIChatClient)
    (get_tools : GetTools) (g : GlobalState) :
    (create_supervisor_agent cl get_tools g).2 =
      (get_jira_agent cl get_tools g).2 := by
  unfold create_supervisor_agent
  rcases hx : get_jira_agent cl get_tools g with ⟨r, g1⟩
  cases r <;> rfl

/-- Helper: `main` appends only prints and the supervisor run — never a
teardown. -/
theorem noClose_main (cl : OpenAIChatClient) (get_tools : GetTools)
    (run_backend : RunBackend) (g : GlobalState)
    (h : noCloseOps g.sys.trace) :
    noCloseOps (main cl get_tools run_backend g).2.sys.trace := by
  have hg1 : noCloseOps (create_supervisor_agent cl get_tools g).2.sys.trace := by
    rw [create_supervisor_agent_snd]
    exact noClose_get_jira_agent cl get_tools g h
  unfold main
  rcases hx : create_supervisor_agent cl get_tools g with ⟨r, g1⟩
  rw [hx] at hg1
  cases r with
  | error e => exact hg1
  | ok sup =>
      dsimp only
      dsimp only at hg1
      unfold noCloseOps at hg1 ⊢
      cases hr : run_backend sup ("Please get the details for ticket " ++
          user_ticket_number) with
      | error e =>
          dsimp only
          simp only [List.all_append, hg1, Bool.true_and]
          rfl
      | ok text =>
          dsimp only
          simp only [List.all_append, hg1, Bool.true_and]
          rfl

/-- **C7.** On no exit path of the program — module-initialization
failure, discovery failure, backend failure, or success — does the trace
ever contain a teardown of the MCP connection: the long-lived client is
never explicitly released before the process ends. -/
theorem runProgram_never_closes_connection (env : Env) (get_tools : GetTools)
    (run_backend : RunBackend) :
    noCloseOps (runProgram env get_tools run_backend).2.sys.trace := by
  unfold runProgram
  cases hcl : client env with
  | error e => exact rfl
  | ok cl =>
      exact noClose_main cl get_tools run_backend initialGlobalState rfl

/-- A model backend that answers the ticket request with a final text. -/
def runBackendFixture : RunBackend :=
  fun _ _ => .ok "AUT-633 — summary: Fix bug, status: Open"

/-- **C9.** The exit code is 0 exactly when the whole run succeeds, 1
otherwise; in particular every unhandled error — including a
module-initialization failure of the client selection — yields a
non-zero exit code. -/
theorem exitCode_zero_iff_success (env : Env) (get_tools : GetTools)
    (run_backend : RunBackend) :
    (exitCode env get_tools run_backend = 0 ∨
     exitCode env get_tools run_backend = 1) ∧
    (exitCode env get_tools run_backend = 0 ↔
      ∃ u, (runProgram env get_tools run_backend).1 = .ok u) ∧
    (∀ e, (runProgram env get_tools run_backend).1 = .error e →
      exitCode env get_tools run_backend = 1) ∧
    (∀ e, client env = .error e →
      exitCode env get_tools run_backend = 1) := by
  have hrun : ∀ e, client env = .error e →
      (runProgram env get_tools run_backend).1 = .error e := by
    intro e he
    unfold runProgram
    rw [he]
  unfold exitCode
  cases hx : (runProgram env get_tools run_backend).1 with
  | error e0 =>
      dsimp only
      refine ⟨Or.inr rfl, ?_, ?_, ?_⟩
      · constructor
        · intro h0
          exact absurd h0 one_ne_zero
        · rintro ⟨u, hu⟩
          exact Except.noConfusion hu
      · intro e h
        rfl
      · intro e h
        rfl
  | ok u =>
      dsimp only
      refine ⟨Or.inl rfl, ?_, ?_, ?_⟩
      · exact ⟨fun _ => ⟨u, rfl⟩, fun _ => rfl⟩
      · intro e h
        exact Except.noConfusion h
      · intro e h
        have h2 := hrun e h
        rw [hx] at h2
        exact Except.noConfusion h2

/-- Witness for C9: the empty environment aborts module initialization
(`KeyError` on the github token) with exit code 1, while a token plus
the fixture transport and backend exit with code 0. -/
theorem exitCode_zero_iff_success_witness :
    exitCode [] getToolsFixture runBackendFixture = 1 ∧
    exitCode [("GITHUB_TOKEN", "ghp-abc")] getToolsFixture runBackendFixture = 0 :=
  ⟨(exitCode_zero_iff_success [] getToolsFixture runBackendFixture).2.2.2
     (.keyError "GITHUB_TOKEN") rfl,
   (exitCode_zero_iff_success [("GITHUB_TOKEN", "ghp-abc")] getToolsFixture
      runBackendFixture).2.1.mpr ⟨(), rfl⟩⟩

end AgentSupervisor
